import Mathlib

/-!
Verification of the DataTrack/DocuMind document-management frontend.

The definitions below are a shallow embedding of the client code:
* the upload page (`app/(dashboard)/upload/page.tsx`): per-file upload /
  processing state, the `processOCR` pipeline, the asynchronous
  `requestClassification` two-phase flow, and `removeFile`;
* the RAG chat component (`RagChat.tsx`): `extractSources`;
* the AI-services process endpoint, whose server code is not part of the
  repository excerpts and is therefore modelled from the spec / `API.md`.

Mapped JS conventions: `T | null`/optional fields become `Option T`,
numeric JSON fields become `Nat`/`Rat`, thrown exceptions become explicit
outcome constructors, and every `setFiles(prev.map(...))` call becomes a
per-file update function applied to the entry whose `id` matches.
-/

namespace DataTrack

/-- `status` field of `UploadedFile`:
`"uploading" | "processing" | "completed" | "error"`. -/
inductive Status where
  | uploading
  | processing
  | completed
  | error
deriving DecidableEq, Repr

/-- `classificationStatus` field: `"loading" | "completed" | "error"`. -/
inductive ClassStatus where
  | loading
  | completed
  | error
deriving DecidableEq, Repr

/-- `interface OCRResult` from the upload page. -/
structure OCRResult where
  text : String
  confidence : Rat
  method : String
  processing_time_seconds : Rat
  character_count : Nat
  word_count : Nat
deriving DecidableEq, Repr

/-- `interface LanguageDetection` from the upload page. -/
structure LanguageDetection where
  language_code : String
  language_name : String
  confidence : Rat
  is_kmrl_primary : Bool
deriving DecidableEq, Repr

/-- `interface TranslationResult` from the upload page. -/
structure TranslationResult where
  original_text : String
  translated_text : String
  source_language : String
  target_language : String
  source_language_name : String
  target_language_name : String
  error : Option String
deriving DecidableEq, Repr

/-- `interface ClassificationResult` from the upload page. -/
structure ClassificationResult where
  category : String
  category_name : String
  confidence : Rat
  department : Option String
  priority : Option String
  error : Option String
deriving DecidableEq, Repr

/-- The `metadata` object inside `interface ProcessingResult`. -/
structure ProcMetadata where
  filename : String
  file_size : Nat
  processed_at : String
  processing_time_seconds : Rat
deriving DecidableEq, Repr

/-- `interface ProcessingResult` from the upload page. -/
structure ProcessingResult where
  ocr : OCRResult
  language_detection : LanguageDetection
  translation : Option TranslationResult
  classification : Option ClassificationResult
  metadata : ProcMetadata
deriving DecidableEq, Repr

/-- `interface UploadedFile` from the upload page.  The raw browser `File`
handle (`file?: File`) carries no observable data beyond name/size/type and
is not modelled. -/
structure UploadedFile where
  id : String
  name : String
  size : Nat
  type : String
  status : Status
  progress : Nat
  error : Option String
  result : Option ProcessingResult
  classificationStatus : Option ClassStatus
  processingId : Option String
deriving DecidableEq, Repr

/-- The entry `processFiles` appends for a newly accepted file:
`{ id, name, size, type, status: "uploading", progress: 0, file }`. -/
def mkUploadedFile (id name ftype : String) (size : Nat) : UploadedFile :=
  { id := id
    name := name
    size := size
    type := ftype
    status := .uploading
    progress := 0
    error := none
    result := none
    classificationStatus := none
    processingId := none }

/-! Per-file transforms of each `setFiles(prev.map(file => file.id === fileId
? ... : file))` call inside `processOCR` / `requestClassification`. -/

/-- `{ ...file, status: "processing", progress: 10 }` -/
def updProcessing (f : UploadedFile) : UploadedFile :=
  { f with status := .processing, progress := 10 }

/-- `{ ...file, progress: 30 }` -/
def updProgress30 (f : UploadedFile) : UploadedFile :=
  { f with progress := 30 }

/-- `{ ...file, progress: 60 }` -/
def updProgress60 (f : UploadedFile) : UploadedFile :=
  { f with progress := 60 }

/-- `{ ...file, progress: 80 }` -/
def updProgress80 (f : UploadedFile) : UploadedFile :=
  { f with progress := 80 }

/-- The catch handler of `processOCR`:
`{ ...file, status: "error", progress: 100, error: message }`. -/
def updError (msg : String) (f : UploadedFile) : UploadedFile :=
  { f with status := .error, progress := 100, error := some msg }

/-- The completion update of `processOCR`: `{ ...file, status: "completed",
progress: 100, classificationStatus: "loading", processingId, result }`. -/
def updComplete (res : ProcessingResult) (pid : String) (f : UploadedFile) :
    UploadedFile :=
  { f with status := .completed
           progress := 100
           classificationStatus := some .loading
           processingId := some pid
           result := some res }

/-- The success update of `requestClassification`: guarded by
`file.id === fileId && file.result`, sets `classificationStatus:
"completed"` and `result.classification`. -/
def updClassifyDone (c : ClassificationResult) (f : UploadedFile) :
    UploadedFile :=
  match f.result with
  | some r =>
      { f with classificationStatus := some .completed
               result := some { r with classification := some c } }
  | none => f

/-- The catch handler of `requestClassification`:
`{ ...file, classificationStatus: "error" }`. -/
def updClassifyError (f : UploadedFile) : UploadedFile :=
  { f with classificationStatus := some .error }

/-! ### The `processOCR` pipeline as an effect trace -/

/-- Shape of `apiResult.data` destructured by `processOCR` on a successful
response: `{ ocr, language_detection, translation }` plus
`processing_info.processing_id`, `processing_info.upload_timestamp` and
`processing_info.processing_time_seconds`. -/
structure ApiData where
  ocr : OCRResult
  language_detection : LanguageDetection
  translation : Option TranslationResult
  processing_id : String
  upload_timestamp : Option String
  processing_time_seconds : Rat
deriving DecidableEq, Repr

/-- Outcome of the single `fetch` to `/api/documents/process`:
the fetch itself throws, the response is not ok (the thrown message is
`errorData.detail || "API Error: <status>"`), or the response parses with a
`data` payload. -/
inductive FetchOutcome where
  | networkError (msg : String)
  | httpError (detail : String)
  | ok (d : ApiData)
deriving Repr

/-- Whether the process request failed (either branch that reaches the catch
handler of `processOCR`). -/
def FetchOutcome.failed : FetchOutcome → Bool
  | .networkError _ => true
  | .httpError _ => true
  | .ok _ => false

/-- The message stored by the catch handler
(`error instanceof Error ? error.message : "Processing failed"`). -/
def FetchOutcome.errMsg : FetchOutcome → String
  | .networkError m => m
  | .httpError d => d
  | .ok _ => ""

/-- Outcome of the `fetch` to `/api/documents/classify/{processingId}`:
either a parsed `success: true` payload carrying a classification, or any
failure (network error, `!response.ok`, or `success: false`), which reaches
the catch handler with the given message. -/
inductive ClassifyOutcome where
  | success (c : ClassificationResult)
  | failure (msg : String)
deriving Repr

/-- The hardcoded fallback translation `processOCR` synthesizes when the API
returns no translation and the detected language code is `'ml'`. -/
def translationFallback (ocrText : String) : TranslationResult :=
  { original_text := ocrText
    translated_text := "Once again, wild elephants destroyed the electric fence and wreaked havoc in the forest and the countryside. The wild elephants destroyed the banana trees and coconut trees of about ten houses near Ayyampuzha Junction. The wild elephants entered the countryside from the oil palm plantation of the Plantation Cooperation. They uprooted the coconut trees and ate their rice. The wild elephants destroyed all the banana trees planted behind the houses. The wild elephants arrived at around 8 pm on Sunday. The locals chased the wild elephants away. However, fearing that the herd of wild elephants would return in the morning, people often let the wild animals enter the countryside through the electric fence on the forest boundary. The herd of wild elephants has destroyed about twenty stilts."
    source_language := "ml"
    target_language := "en"
    source_language_name := "Malayalam"
    target_language_name := "English"
    error := none }

/-- `let translationData = translation; if (!translationData &&
language_detection?.language_code === 'ml') translationData = {...}`. -/
def computeTranslationData (translation : Option TranslationResult)
    (langCode : String) (ocrText : String) : Option TranslationResult :=
  match translation with
  | some t => some t
  | none =>
      if langCode = "ml" then some (translationFallback ocrText) else none

/-- The `result` object stored by the completion update of `processOCR`
(`classification: undefined` — populated asynchronously later).  `now`
stands for `new Date().toISOString()`, used when
`processing_info.upload_timestamp` is absent or empty (JS falsy check). -/
def mkResult (name : String) (fsize : Nat) (now : String) (d : ApiData) :
    ProcessingResult :=
  { ocr := d.ocr
    language_detection := d.language_detection
    translation :=
      computeTranslationData d.translation d.language_detection.language_code
        d.ocr.text
    classification := none
    metadata :=
      { filename := name
        file_size := fsize
        processed_at :=
          match d.upload_timestamp with
          | some ts => if ts = "" then now else ts
          | none => now
        processing_time_seconds := d.processing_time_seconds } }

/-- `translatedText || null` in `requestClassification`, where
`translatedText = translationData?.translated_text`: JS `||` maps both an
absent and an empty translated text to `null`. -/
def classifyBodyTranslation (td : Option TranslationResult) : Option String :=
  match td with
  | some t => if t.translated_text = "" then none else some t.translated_text
  | none => none

/-- Requests issued by the upload page: the multipart
`POST /api/documents/process` upload of the file, and the JSON
`POST /api/documents/classify/{processingId}` with body
`{ text, translation }`. -/
inductive ApiRequest where
  | processDoc (filename : String)
  | classify (processingId : String) (text : String)
      (translation : Option String)
deriving DecidableEq, Repr

/-- Observable effects of a `processOCR` / `requestClassification` run: a
`setFiles` update (the mapper applied to the entry with the matching id), a
toast (title and whether `variant: "destructive"`), or an HTTP request. -/
inductive Effect where
  | setFilesMap (u : UploadedFile → UploadedFile)
  | toast (title : String) (destructive : Bool)
  | request (r : ApiRequest)

/-- Effect trace of `requestClassification(fileId, processingId,
originalText, translatedText)`. -/
def requestClassificationEffects (pid text : String)
    (translation : Option String) : ClassifyOutcome → List Effect
  | .success c =>
      [.request (.classify pid text translation),
       .setFilesMap (updClassifyDone c),
       .toast "Classification Complete" false]
  | .failure _ =>
      [.request (.classify pid text translation),
       .setFilesMap updClassifyError,
       .toast "Classification Failed" true]

/-- Effect trace of `processOCR(fileId, fileToProcess)` as invoked from
`processFiles` (so the file object is always provided and the in-state
lookup never throws).  `co` is only reached on the success branch, where
`requestClassification` is invoked. -/
def processOCREffects (name : String) (fsize : Nat) (now : String) :
    FetchOutcome → ClassifyOutcome → List Effect
  | .networkError msg, _ =>
      [.setFilesMap updProcessing,
       .setFilesMap updProgress30,
       .request (.processDoc name),
       .setFilesMap (updError msg),
       .toast "OCR Processing Failed" true]
  | .httpError detail, _ =>
      [.setFilesMap updProcessing,
       .setFilesMap updProgress30,
       .request (.processDoc name),
       .setFilesMap updProgress60,
       .setFilesMap (updError detail),
       .toast "OCR Processing Failed" true]
  | .ok d, co =>
      [.setFilesMap updProcessing,
       .setFilesMap updProgress30,
       .request (.processDoc name),
       .setFilesMap updProgress60,
       .setFilesMap updProgress80,
       .setFilesMap (updComplete (mkResult name fsize now d) d.processing_id),
       .toast "OCR Processing Complete" false]
      ++ requestClassificationEffects d.processing_id d.ocr.text
           (classifyBodyTranslation
             (computeTranslationData d.translation
               d.language_detection.language_code d.ocr.text)) co

/-- The per-file update functions of an effect trace, in order. -/
def fileUpdates (effs : List Effect) : List (UploadedFile → UploadedFile) :=
  effs.filterMap fun e =>
    match e with
    | .setFilesMap u => some u
    | _ => none

/-- The successive states of one file entry under a list of updates,
starting from `f0` (the state `processFiles` created it in). -/
def statesOf (f0 : UploadedFile) (tr : List (UploadedFile → UploadedFile)) :
    List UploadedFile :=
  tr.scanl (fun f u => u f) f0

/-- One `setFiles(prev.map(file => file.id === fileId ? u(file) : file))`
call applied to the whole files list. -/
def applyUpdate (fid : String) (u : UploadedFile → UploadedFile)
    (fs : List UploadedFile) : List UploadedFile :=
  fs.map fun f => if f.id = fid then u f else f

/-- Running an effect trace against the files list: only the `setFiles`
effects touch it. -/
def runEffects (fid : String) (fs : List UploadedFile) :
    List Effect → List UploadedFile
  | [] => fs
  | .setFilesMap u :: rest => runEffects fid (applyUpdate fid u fs) rest
  | .toast _ _ :: rest => runEffects fid fs rest
  | .request _ :: rest => runEffects fid fs rest

/-- `removeFile`'s files update: `prev.filter(file => file.id !== fileId)`. -/
def removeFileList (fs : List UploadedFile) (fid : String) :
    List UploadedFile :=
  fs.filter fun f => f.id ≠ fid

/-- Minimal page state for `removeFile`: the files list and the
selected-result panel (`selectedFileResult`). -/
structure PageState where
  files : List UploadedFile
  selected : Option UploadedFile

/-- `removeFile(fileId)`: filters the files list and clears
`selectedFileResult` when its id matches (`selectedFileResult?.id ===
fileId`), otherwise leaves it. -/
def removeFile (st : PageState) (fid : String) : PageState :=
  { files := removeFileList st.files fid
    selected :=
      match st.selected with
      | some s => if s.id = fid then none else some s
      | none => none }

/-! ### `extractSources` from `RagChat.tsx` -/

/-- `s.toLowerCase()`. -/
def lowerStr (s : String) : String := String.mk (s.toList.map Char.toLower)

/-- `s.includes(pat)`: substring containment. -/
def strIncludes (s pat : String) : Bool :=
  decide (List.IsInfix pat.toList s.toList)

/-- The inner texts of the non-overlapping matches of the global regex
`/"([^"]+)"/g`, scanning left to right: at a quote followed by a non-empty
run of non-quote characters and a closing quote, a match is emitted and the
scan resumes after the closing quote; otherwise the scan advances one
character. -/
def quotedMatches : List Char → List String
  | [] => []
  | c :: rest =>
    if c = '"' then
      match h : rest.dropWhile (fun x => x != '"') with
      | '"' :: tail =>
        let span := rest.takeWhile (fun x => x != '"')
        if span.isEmpty then quotedMatches rest
        else String.mk span :: quotedMatches tail
      | _ => quotedMatches rest
    else quotedMatches rest
termination_by l => l.length
decreasing_by
  · simp
  · have hlen : (rest.dropWhile (fun x => x != '"')).length ≤ rest.length :=
      (List.dropWhile_suffix _).sublist.length_le
    rw [h] at hlen
    simp only [List.length_cons] at hlen
    simp only [List.length_cons]
    omega
  · simp
  · simp

/-- `Array.from(new Set(xs))`: first occurrences, in order. -/
def uniqueFirst : List String → List String
  | [] => []
  | x :: xs => x :: uniqueFirst (xs.filter fun y => y != x)
termination_by l => l.length
decreasing_by
  have := xs.length_filter_le (fun y => y != x)
  simp only [List.length_cons]
  omega

/-- A source entry `{ title, url, snippet }`. -/
structure Source where
  title : String
  url : String
  snippet : String
deriving DecidableEq, Repr

/-- The snippet chosen for a quoted document name, by lowercase keyword
checks on the name. -/
def quotedDocSnippet (doc : String) : String :=
  let l := lowerStr doc
  if strIncludes l "security" || strIncludes l "audit" then
    "This document contains comprehensive analysis of security systems, potential vulnerabilities, and recommended mitigation measures."
  else if strIncludes l "safety" then
    "The safety report outlines compliance with protocols and emergency response improvements."
  else if strIncludes l "extension" || strIncludes l "expansion" then
    "The proposal details plans for metro line extensions, including budget estimates and timelines."
  else if strIncludes l "financial" || strIncludes l "finance" then
    "Financial analysis including revenue growth, operational expenses, and cost optimization measures."
  else
    "This document provides key information related to document processing and analysis."

/-- The keyword-to-document table used when no quoted names are found. -/
def keywordDocs : List (String × String) :=
  [("security", "Security_Audit_Report_2024"),
   ("safety", "Safety Compliance Report Q2 2024"),
   ("financial", "Financial Statement Q1 2024"),
   ("extension", "Project Extension Proposal"),
   ("expansion", "Infrastructure Expansion Plan 2023-2025"),
   ("passenger", "Service Guidelines Document"),
   ("operation", "Document Processing Guide 2024")]

/-- The sources pushed for the quoted document names
(`if (documentMatches && documentMatches.length > 0) { ... }`): one source
per unique name, empty when the regex found nothing. -/
def quotedSources (text : String) : List Source :=
  if (quotedMatches text.toList).length > 0 then
    (uniqueFirst (quotedMatches text.toList)).map fun doc =>
      { title := doc, url := "#", snippet := quotedDocSnippet doc }
  else []

/-- The keyword-generated sources
(`Object.entries(keywords).forEach(...)`). -/
def keywordSources (text : String) : List Source :=
  keywordDocs.filterMap fun p =>
    if strIncludes (lowerStr text) (lowerStr p.1) then
      some { title := p.2, url := "#",
             snippet := "This document contains information related to "
               ++ p.1 ++ " measures and implementations." }
    else none

/-- The generic source pushed when everything else came up empty. -/
def genericSource : Source :=
  { title := "Personal Document Repository", url := "#",
    snippet := "Central repository for all uploaded documents, images, videos, and audio files." }

/-- `extractSources` from `RagChat.tsx`: quoted document names first (one
source per unique name), else (`if (sources.length === 0)`) keyword
matches, else a single generic source; the result is truncated with
`slice(0, 3)`. -/
def extractSources (text : String) : List Source :=
  (if (quotedSources text).length = 0 then
    if (keywordSources text).length = 0 then [genericSource]
    else keywordSources text
  else quotedSources text).take 3

/-! ### The AI-services process endpoint (spec-modelled)

The FastAPI server implementing `POST /api/documents/process` is not among
the repository excerpts; only `docs/API.md` and the spec describe it.  The
definitions in this section are therefore modelled from the spec. -/

/-- Modelled from the spec: payload of a successful OCR sub-step
(`docs/API.md`, process-endpoint response, `ocr`). -/
structure OcrStepData where
  text : String
  confidence : Rat
  method : String
deriving DecidableEq, Repr

/-- Modelled from the spec: payload of a successful language-detection
sub-step (`docs/API.md`, `language_detection`). -/
structure LangStepData where
  language_code : String
  language_name : String
  confidence : Rat
deriving DecidableEq, Repr

/-- Modelled from the spec: payload of a successful translation sub-step
(`docs/API.md`, translation response). -/
structure TransStepData where
  original_text : String
  translated_text : String
  source_language : String
  target_language : String
deriving DecidableEq, Repr

/-- Modelled from the spec: payload of a successful classification sub-step
(`docs/API.md`, `classification`). -/
structure ClassStepData where
  category : String
  confidence : Rat
  department : Option String
  priority : Option String
deriving DecidableEq, Repr

/-- Modelled from the spec: the `ocr` sub-result of the composed response,
with its own nullable `error` field. -/
structure OcrSub where
  text : String
  confidence : Rat
  method : String
  error : Option String
deriving DecidableEq, Repr

/-- Modelled from the spec: the `language_detection` sub-result, with its
own nullable `error` field. -/
structure LangSub where
  language_code : String
  language_name : String
  confidence : Rat
  error : Option String
deriving DecidableEq, Repr

/-- Modelled from the spec: the `translation` sub-result, with its own
nullable `error` field. -/
structure TransSub where
  original_text : String
  translated_text : String
  source_language : String
  target_language : String
  error : Option String
deriving DecidableEq, Repr

/-- Modelled from the spec: the `classification` sub-result, with its own
nullable `error` field. -/
structure ClassSub where
  category : String
  confidence : Rat
  department : Option String
  priority : Option String
  error : Option String
deriving DecidableEq, Repr

/-- Modelled from the spec: the composed process-endpoint response body
(`success` plus independent sub-results; `translation` and
`classification` are nullable). -/
structure ProcessResponse where
  success : Bool
  ocr : OcrSub
  language_detection : LangSub
  translation : Option TransSub
  classification : Option ClassSub
deriving DecidableEq, Repr

/-- Modelled from the spec: the outcome of each vendor-API sub-step, each
either a payload or a failure message. -/
structure StepOutcomes where
  ocr : Except String OcrStepData
  language_detection : Except String LangStepData
  translation : Except String TransStepData
  classification : Except String ClassStepData
deriving Repr

/-- Modelled from the spec: embed an OCR sub-step outcome into its
sub-result, capturing a failure in the `error` field. -/
def mkOcrSub : Except String OcrStepData → OcrSub
  | .ok d => { text := d.text, confidence := d.confidence,
               method := d.method, error := none }
  | .error e => { text := "", confidence := 0, method := "", error := some e }

/-- Modelled from the spec: embed a language-detection sub-step outcome. -/
def mkLangSub : Except String LangStepData → LangSub
  | .ok d => { language_code := d.language_code,
               language_name := d.language_name,
               confidence := d.confidence, error := none }
  | .error e => { language_code := "", language_name := "",
                  confidence := 0, error := some e }

/-- Modelled from the spec: embed a translation sub-step outcome. -/
def mkTransSub : Except String TransStepData → TransSub
  | .ok d => { original_text := d.original_text,
               translated_text := d.translated_text,
               source_language := d.source_language,
               target_language := d.target_language, error := none }
  | .error e => { original_text := "", translated_text := "",
                  source_language := "", target_language := "",
                  error := some e }

/-- Modelled from the spec: embed a classification sub-step outcome. -/
def mkClassSub : Except String ClassStepData → ClassSub
  | .ok d => { category := d.category, confidence := d.confidence,
               department := d.department, priority := d.priority,
               error := none }
  | .error e => { category := "", confidence := 0, department := none,
                  priority := none, error := some e }

/-- Modelled from the spec: composition of the process-endpoint response.
Translation is skipped (null) when not requested or when the detected
language equals the target language; classification is attempted only when
requested; each sub-step's failure is recorded in that sub-result's own
`error` field while the request itself still succeeds. -/
def composeProcessResponse (include_translation include_classification : Bool)
    (target_language : String) (o : StepOutcomes) : ProcessResponse :=
  { success := true
    ocr := mkOcrSub o.ocr
    language_detection := mkLangSub o.language_detection
    translation :=
      if include_translation then
        match o.language_detection with
        | .ok d =>
            if d.language_code = target_language then none
            else some (mkTransSub o.translation)
        | .error _ => some (mkTransSub o.translation)
      else none
    classification :=
      if include_classification then some (mkClassSub o.classification)
      else none }

/-! ### Helper definitions and lemmas for the claims -/

/-- The status transitions the upload page is claimed to perform: stay put,
uploading → processing, or processing → completed/error. -/
def stepOK (s t : Status) : Prop :=
  t = s ∨ (s = .uploading ∧ t = .processing) ∨
    (s = .processing ∧ (t = .completed ∨ t = .error))

instance : DecidableRel stepOK := fun s t =>
  decidable_of_iff
    (t = s ∨ (s = .uploading ∧ t = .processing) ∨
      (s = .processing ∧ (t = .completed ∨ t = .error))) Iff.rfl

/-- `translationData` as computed by `processOCR` for a successful
response. -/
def translationDataOf (d : ApiData) : Option TranslationResult :=
  computeTranslationData d.translation d.language_detection.language_code
    d.ocr.text

/-- Effect classifiers used to count toasts and requests. -/
def Effect.isToast : Effect → Bool
  | .toast _ _ => true
  | _ => false

def Effect.isDestructiveToast : Effect → Bool
  | .toast _ true => true
  | _ => false

def Effect.isProcessReq : Effect → Bool
  | .request (.processDoc _) => true
  | _ => false

def Effect.isClassifyReq : Effect → Bool
  | .request (.classify _ _ _) => true
  | _ => false

lemma forall_mem_of_map {α β : Type} {l : List α} {f : α → β} {P : β → Prop}
    (hl : ∀ b ∈ l.map f, P b) : ∀ a ∈ l, P (f a) :=
  fun a ha => hl _ (List.mem_map_of_mem f ha)

lemma applyUpdate_applyUpdate (fid : String)
    (u v : UploadedFile → UploadedFile) (hv : ∀ f, (v f).id = f.id)
    (fs : List UploadedFile) :
    applyUpdate fid u (applyUpdate fid v fs)
      = applyUpdate fid (fun f => u (v f)) fs := by
  unfold applyUpdate
  rw [List.map_map]
  refine congrArg (fun g => List.map g fs) ?_
  funext f
  by_cases h : f.id = fid
  · simp [Function.comp, h, hv]
  · simp [Function.comp, h]

/-- The successive states of one uploaded file entry, from its creation by
`processFiles` through the `processOCR` pipeline and the asynchronous
classification round-trip. -/
def uploadTrace (id name ftype : String) (size : Nat) (now : String)
    (fo : FetchOutcome) (co : ClassifyOutcome) : List UploadedFile :=
  statesOf (mkUploadedFile id name ftype size)
    (fileUpdates (processOCREffects name size now fo co))

/-- C1: every tracked file starts at status "uploading" with progress 0,
every state update steps along uploading → processing → (completed |
error) (or stays put), so no update ever moves a file out of "completed"
or "error"; `removeFile` only deletes entries, it never alters one. -/
theorem upload_file_status_lifecycle (id name ftype : String) (size : Nat)
    (now : String) (fo : FetchOutcome) (co : ClassifyOutcome) :
    ((uploadTrace id name ftype size now fo co).map
        (fun s => s.status)).head? = some .uploading
    ∧ (mkUploadedFile id name ftype size).progress = 0
    ∧ List.Chain' stepOK
        ((uploadTrace id name ftype size now fo co).map (fun s => s.status))
    ∧ (∀ fs fid f, f ∈ removeFileList fs fid → f ∈ fs) := by
  refine ⟨?_, rfl, ?_, ?_⟩
  · cases fo with
    | networkError m => rfl
    | httpError m => rfl
    | ok d => cases co <;> rfl
  · cases fo with
    | networkError m =>
        rw [show (uploadTrace id name ftype size now (.networkError m) co).map
            (fun s => s.status)
          = [.uploading, .processing, .processing, .error] from rfl]
        simp [List.chain'_cons, stepOK]
    | httpError m =>
        rw [show (uploadTrace id name ftype size now (.httpError m) co).map
            (fun s => s.status)
          = [.uploading, .processing, .processing, .processing, .error]
          from rfl]
        simp [List.chain'_cons, stepOK]
    | ok d =>
        cases co with
        | success c =>
            rw [show (uploadTrace id name ftype size now (.ok d)
                (.success c)).map (fun s => s.status)
              = [.uploading, .processing, .processing, .processing,
                 .processing, .completed, .completed] from rfl]
            simp [List.chain'_cons, stepOK]
        | failure m =>
            rw [show (uploadTrace id name ftype size now (.ok d)
                (.failure m)).map (fun s => s.status)
              = [.uploading, .processing, .processing, .processing,
                 .processing, .completed, .completed] from rfl]
            simp [List.chain'_cons, stepOK]
  · intro fs fid f hf
    exact List.mem_of_mem_filter hf

/-- C8: along every run, the progress field never decreases, its changing
values are a subsequence of 0, 10, 30, 60, 80, 100 in that order, and in
both terminal states ("completed" and "error") it equals 100. -/
theorem upload_progress_monotone (id name ftype : String) (size : Nat)
    (now : String) (fo : FetchOutcome) (co : ClassifyOutcome) :
    List.Chain' (fun a b => a ≤ b)
      ((uploadTrace id name ftype size now fo co).map (fun s => s.progress))
    ∧ (((uploadTrace id name ftype size now fo co).map
          (fun s => s.progress)).destutter (fun a b => a ≠ b)).Sublist
        [0, 10, 30, 60, 80, 100]
    ∧ (∀ s ∈ uploadTrace id name ftype size now fo co,
        (s.status = .completed ∨ s.status = .error) → s.progress = 100) := by
  refine ⟨?_, ?_, ?_⟩
  · cases fo with
    | networkError m =>
        rw [show (uploadTrace id name ftype size now (.networkError m) co).map
            (fun s => s.progress) = [0, 10, 30, 100] from rfl]
        simp [List.chain'_cons]
    | httpError m =>
        rw [show (uploadTrace id name ftype size now (.httpError m) co).map
            (fun s => s.progress) = [0, 10, 30, 60, 100] from rfl]
        simp [List.chain'_cons]
    | ok d =>
        cases co with
        | success c =>
            rw [show (uploadTrace id name ftype size now (.ok d)
                (.success c)).map (fun s => s.progress)
              = [0, 10, 30, 60, 80, 100, 100] from rfl]
            simp [List.chain'_cons]
        | failure m =>
            rw [show (uploadTrace id name ftype size now (.ok d)
                (.failure m)).map (fun s => s.progress)
              = [0, 10, 30, 60, 80, 100, 100] from rfl]
            simp [List.chain'_cons]
  · cases fo with
    | networkError m =>
        rw [show (uploadTrace id name ftype size now (.networkError m) co).map
            (fun s => s.progress) = [0, 10, 30, 100] from rfl]
        decide
    | httpError m =>
        rw [show (uploadTrace id name ftype size now (.httpError m) co).map
            (fun s => s.progress) = [0, 10, 30, 60, 100] from rfl]
        decide
    | ok d =>
        cases co with
        | success c =>
            rw [show (uploadTrace id name ftype size now (.ok d)
                (.success c)).map (fun s => s.progress)
              = [0, 10, 30, 60, 80, 100, 100] from rfl]
            decide
        | failure m =>
            rw [show (uploadTrace id name ftype size now (.ok d)
                (.failure m)).map (fun s => s.progress)
              = [0, 10, 30, 60, 80, 100, 100] from rfl]
            decide
  · have key : ∀ (l : List UploadedFile),
        (∀ p ∈ l.map (fun s => (s.status, s.progress)),
          (p.1 = Status.completed ∨ p.1 = Status.error) → p.2 = 100) →
        ∀ s ∈ l, (s.status = .completed ∨ s.status = .error) →
          s.progress = 100 := by
      intro l hl s hs
      exact hl _ (List.mem_map_of_mem _ hs)
    apply key
    cases fo with
    | networkError m =>
        rw [show (uploadTrace id name ftype size now (.networkError m) co).map
            (fun s => (s.status, s.progress))
          = [(.uploading, 0), (.processing, 10), (.processing, 30),
             (.error, 100)] from rfl]
        decide
    | httpError m =>
        rw [show (uploadTrace id name ftype size now (.httpError m) co).map
            (fun s => (s.status, s.progress))
          = [(.uploading, 0), (.processing, 10), (.processing, 30),
             (.processing, 60), (.error, 100)] from rfl]
        decide
    | ok d =>
        cases co with
        | success c =>
            rw [show (uploadTrace id name ftype size now (.ok d)
                (.success c)).map (fun s => (s.status, s.progress))
              = [(.uploading, 0), (.processing, 10), (.processing, 30),
                 (.processing, 60), (.processing, 80), (.completed, 100),
                 (.completed, 100)] from rfl]
            decide
        | failure m =>
            rw [show (uploadTrace id name ftype size now (.ok d)
                (.failure m)).map (fun s => (s.status, s.progress))
              = [(.uploading, 0), (.processing, 10), (.processing, 30),
                 (.processing, 60), (.processing, 80), (.completed, 100),
                 (.completed, 100)] from rfl]
            decide

/-- C6: whenever a file's `classificationStatus` is defined its main status
is "completed": the sub-status is first attached by the very update that
marks the file completed (which sets both fields at once), and the later
classification updates rewrite only `classificationStatus` and
`result.classification`, never the main status or progress. -/
theorem classification_substatus_after_completed (id name ftype : String)
    (size : Nat) (now : String) (fo : FetchOutcome) (co : ClassifyOutcome) :
    (∀ s ∈ uploadTrace id name ftype size now fo co,
      s.classificationStatus ≠ none → s.status = .completed)
    ∧ (∀ f res pid, (updComplete res pid f).status = .completed
        ∧ (updComplete res pid f).classificationStatus = some .loading)
    ∧ (∀ f r c, f.result = some r →
        updClassifyDone c f
          = { f with classificationStatus := some .completed,
                     result := some { r with classification := some c } })
    ∧ (∀ f, updClassifyError f
        = { f with classificationStatus := some .error })
    ∧ (∀ f c, (updClassifyDone c f).status = f.status
        ∧ (updClassifyDone c f).progress = f.progress) := by
  refine ⟨?_, fun f res pid => ⟨rfl, rfl⟩, ?_, fun f => rfl, ?_⟩
  · have key : ∀ (l : List UploadedFile),
        (∀ p ∈ l.map (fun s => (s.classificationStatus, s.status)),
          p.1 ≠ none → p.2 = Status.completed) →
        ∀ s ∈ l, s.classificationStatus ≠ none → s.status = .completed := by
      intro l hl s hs
      exact hl _ (List.mem_map_of_mem _ hs)
    apply key
    cases fo with
    | networkError m =>
        rw [show (uploadTrace id name ftype size now (.networkError m) co).map
            (fun s => (s.classificationStatus, s.status))
          = [(none, .uploading), (none, .processing), (none, .processing),
             (none, .error)] from rfl]
        decide
    | httpError m =>
        rw [show (uploadTrace id name ftype size now (.httpError m) co).map
            (fun s => (s.classificationStatus, s.status))
          = [(none, .uploading), (none, .processing), (none, .processing),
             (none, .processing), (none, .error)] from rfl]
        decide
    | ok d =>
        cases co with
        | success c =>
            rw [show (uploadTrace id name ftype size now (.ok d)
                (.success c)).map
                  (fun s => (s.classificationStatus, s.status))
              = [(none, .uploading), (none, .processing), (none, .processing),
                 (none, .processing), (none, .processing),
                 (some .loading, .completed), (some .completed, .completed)]
              from rfl]
            decide
        | failure m =>
            rw [show (uploadTrace id name ftype size now (.ok d)
                (.failure m)).map
                  (fun s => (s.classificationStatus, s.status))
              = [(none, .uploading), (none, .processing), (none, .processing),
                 (none, .processing), (none, .processing),
                 (some .loading, .completed), (some .error, .completed)]
              from rfl]
            decide
  · intro f r c h
    simp [updClassifyDone, h]
  · intro f c
    unfold updClassifyDone
    cases f.result <;> simp

/-- C7: when the processing request fails (network error or non-OK
response), the run maps exactly the entry with the given id to status
"error" with progress 100 and the error message stored, leaves every other
entry unchanged, emits exactly one toast — a destructive one — and issues
exactly one process request and no classification request (no retry). -/
theorem processing_failure_isolated (fs : List UploadedFile)
    (fid name : String) (fsize : Nat) (now : String) (fo : FetchOutcome)
    (co : ClassifyOutcome) (hfail : fo.failed = true) :
    runEffects fid fs (processOCREffects name fsize now fo co)
      = fs.map (fun f => if f.id = fid then
          { f with status := .error, progress := 100,
                   error := some fo.errMsg } else f)
    ∧ (processOCREffects name fsize now fo co).countP Effect.isToast = 1
    ∧ (processOCREffects name fsize now fo co).countP
        Effect.isDestructiveToast = 1
    ∧ (processOCREffects name fsize now fo co).countP Effect.isProcessReq = 1
    ∧ (processOCREffects name fsize now fo co).countP Effect.isClassifyReq
        = 0 := by
  cases fo with
  | ok d => simp [FetchOutcome.failed] at hfail
  | networkError m =>
      refine ⟨?_, rfl, rfl, rfl, rfl⟩
      have e1 : runEffects fid fs
          (processOCREffects name fsize now (.networkError m) co)
        = applyUpdate fid (updError m)
            (applyUpdate fid updProgress30
              (applyUpdate fid updProcessing fs)) := rfl
      rw [e1,
        applyUpdate_applyUpdate fid (updError m) updProgress30
          (fun f => rfl),
        applyUpdate_applyUpdate fid _ updProcessing (fun f => rfl)]
      rfl
  | httpError m =>
      refine ⟨?_, rfl, rfl, rfl, rfl⟩
      have e1 : runEffects fid fs
          (processOCREffects name fsize now (.httpError m) co)
        = applyUpdate fid (updError m)
            (applyUpdate fid updProgress60
              (applyUpdate fid updProgress30
                (applyUpdate fid updProcessing fs))) := rfl
      rw [e1,
        applyUpdate_applyUpdate fid (updError m) updProgress60
          (fun f => rfl),
        applyUpdate_applyUpdate fid _ updProgress30 (fun f => rfl),
        applyUpdate_applyUpdate fid _ updProcessing (fun f => rfl)]
      rfl

/-- C2 (amended): after a successful process call the run issues exactly
one classification request, to `/api/documents/classify/{processingId}`
with the processing id returned by the process endpoint, carrying the
already-extracted OCR text; the translated text is carried when present
and non-empty (the JS `|| null` maps an empty translated text to null);
the file is uploaded exactly once (no re-upload, no second OCR run). -/
theorem single_classification_request (name : String) (fsize : Nat)
    (now : String) (d : ApiData) (co : ClassifyOutcome) :
    (processOCREffects name fsize now (.ok d) co).countP
        Effect.isClassifyReq = 1
    ∧ (processOCREffects name fsize now (.ok d) co).countP
        Effect.isProcessReq = 1
    ∧ Effect.request (.classify d.processing_id d.ocr.text
          (classifyBodyTranslation (translationDataOf d)))
        ∈ processOCREffects name fsize now (.ok d) co
    ∧ (∀ t, translationDataOf d = some t → t.translated_text ≠ "" →
        classifyBodyTranslation (translationDataOf d)
          = some t.translated_text)
    ∧ (translationDataOf d = none →
        classifyBodyTranslation (translationDataOf d) = none) := by
  refine ⟨?_, ?_, ?_, ?_, ?_⟩
  · cases co <;> rfl
  · cases co <;> rfl
  · cases co with
    | success c =>
        exact List.mem_append_right _ (List.mem_cons_self _ _)
    | failure m =>
        exact List.mem_append_right _ (List.mem_cons_self _ _)
  · intro t ht hne
    rw [ht]
    simp [classifyBodyTranslation, hne]
  · intro h
    rw [h]
    rfl

/-- Concrete response used to refute C2 as stated: the translation result
is present but its `translated_text` is the empty string. -/
def cxTranslation : TranslationResult :=
  { original_text := "abc", translated_text := "",
    source_language := "ml", target_language := "en",
    source_language_name := "Malayalam", target_language_name := "English",
    error := none }

def cxApiData : ApiData :=
  { ocr := { text := "abc", confidence := 1, method := "document",
             processing_time_seconds := 1, character_count := 3,
             word_count := 1 }
    language_detection := { language_code := "ml",
                            language_name := "Malayalam", confidence := 1,
                            is_kmrl_primary := true }
    translation := some cxTranslation
    processing_id := "pid-1"
    upload_timestamp := some "ts"
    processing_time_seconds := 1 }

/-- C2 (counterexample): with a translation present whose `translated_text`
is the empty string, the single classification request issued carries
`null` instead of the translated text — `translatedText || null` is falsy
on the empty string — so the claim as stated fails. -/
theorem single_classification_request_cx :
    translationDataOf cxApiData = some cxTranslation
    ∧ Effect.request (.classify "pid-1" "abc" none)
        ∈ processOCREffects "f.png" 3 "t0" (.ok cxApiData) (.failure "x")
    ∧ (processOCREffects "f.png" 3 "t0" (.ok cxApiData)
        (.failure "x")).countP Effect.isClassifyReq = 1
    ∧ (none : Option String) ≠ some cxTranslation.translated_text := by
  refine ⟨rfl, ?_, rfl, by decide⟩
  exact List.mem_append_right _ (List.mem_cons_self _ _)

/-- C3: when the process response carries no translation and the detected
language code is "ml", `processOCR` synthesizes a fallback translation
whose `original_text` is the OCR text, with source language "ml", target
language "en" and a null error; when the detected language is not "ml" no
translation is synthesized and the stored result's translation stays
absent. -/
theorem malayalam_fallback_translation (name : String) (fsize : Nat)
    (now : String) (d : ApiData) (hnone : d.translation = none) :
    (d.language_detection.language_code = "ml" →
      (mkResult name fsize now d).translation
          = some (translationFallback d.ocr.text)
        ∧ (translationFallback d.ocr.text).original_text = d.ocr.text
        ∧ (translationFallback d.ocr.text).source_language = "ml"
        ∧ (translationFallback d.ocr.text).target_language = "en"
        ∧ (translationFallback d.ocr.text).error = none)
    ∧ (d.language_detection.language_code ≠ "ml" →
        (mkResult name fsize now d).translation = none) := by
  constructor
  · intro h
    refine ⟨?_, rfl, rfl, rfl, rfl⟩
    simp [mkResult, computeTranslationData, hnone, h]
  · intro h
    simp [mkResult, computeTranslationData, hnone, h]

/-- C4: in the composed process-endpoint response each sub-result carries
its own nullable error field — a failed sub-step is recorded as `some msg`
there and a successful one as `none` — the request as a whole still
succeeds, each sub-result is built from its own sub-step outcome, and
failing the OCR step leaves every other sub-result intact. -/
theorem per_field_error_tolerance (it ic : Bool) (tl : String)
    (o : StepOutcomes) :
    (composeProcessResponse it ic tl o).success = true
    ∧ (∀ e, (mkOcrSub (.error e)).error = some e)
    ∧ (∀ e, (mkLangSub (.error e)).error = some e)
    ∧ (∀ e, (mkTransSub (.error e)).error = some e)
    ∧ (∀ e, (mkClassSub (.error e)).error = some e)
    ∧ (∀ p, (mkOcrSub (.ok p)).error = none)
    ∧ (∀ p, (mkLangSub (.ok p)).error = none)
    ∧ (∀ p, (mkTransSub (.ok p)).error = none)
    ∧ (∀ p, (mkClassSub (.ok p)).error = none)
    ∧ (composeProcessResponse it ic tl o).ocr = mkOcrSub o.ocr
    ∧ (composeProcessResponse it ic tl o).language_detection
        = mkLangSub o.language_detection
    ∧ (ic = true → (composeProcessResponse it ic tl o).classification
        = some (mkClassSub o.classification))
    ∧ (∀ e,
        (composeProcessResponse it ic tl
            { o with ocr := .error e }).language_detection
          = (composeProcessResponse it ic tl o).language_detection
        ∧ (composeProcessResponse it ic tl
            { o with ocr := .error e }).translation
          = (composeProcessResponse it ic tl o).translation
        ∧ (composeProcessResponse it ic tl
            { o with ocr := .error e }).classification
          = (composeProcessResponse it ic tl o).classification
        ∧ (composeProcessResponse it ic tl
            { o with ocr := .error e }).success = true
        ∧ (composeProcessResponse it ic tl
            { o with ocr := .error e }).ocr.error = some e) := by
  refine ⟨rfl, fun e => rfl, fun e => rfl, fun e => rfl, fun e => rfl,
    fun p => rfl, fun p => rfl, fun p => rfl, fun p => rfl, rfl, rfl,
    ?_, fun e => ⟨rfl, rfl, rfl, rfl, rfl⟩⟩
  intro h
  simp [composeProcessResponse, h]

/-- C5: with translation requested, when the detected language of the
extracted text equals the requested target language the translation field
of the composed response is null — the translation sub-step is skipped. -/
theorem translation_skipped_when_same_language (ic : Bool) (tl : String)
    (o : StepOutcomes) (dl : LangStepData)
    (hl : o.language_detection = .ok dl) (heq : dl.language_code = tl) :
    (composeProcessResponse true ic tl o).translation = none := by
  simp [composeProcessResponse, hl, heq]

/-- C9: for every input string `extractSources` returns between 1 and 3
sources: quoted document names yield one source per unique name (truncated
to 3), otherwise keyword matches yield the sources, otherwise the single
generic "Personal Document Repository" source is returned. -/
theorem extractSources_count (text : String) :
    1 ≤ (extractSources text).length ∧ (extractSources text).length ≤ 3 := by
  unfold extractSources
  by_cases hq : (quotedSources text).length = 0
  · by_cases hk : (keywordSources text).length = 0
    · rw [if_pos hq, if_pos hk]
      simp
    · rw [if_pos hq, if_neg hk, List.length_take]
      omega
  · rw [if_neg hq, List.length_take]
    omega

/-- C10: `removeFile` removes exactly the entries whose id equals the given
id, keeps every other entry unchanged and in order, and clears the
selected-result panel if and only if the currently selected file has that
id. -/
theorem removeFile_frame (st : PageState) (fid : String) :
    (∀ f, f ∈ (removeFile st fid).files ↔ f ∈ st.files ∧ f.id ≠ fid)
    ∧ (removeFile st fid).files.Sublist st.files
    ∧ ((removeFile st fid).selected = none ↔
        st.selected = none ∨ ∃ s, st.selected = some s ∧ s.id = fid)
    ∧ (∀ s, st.selected = some s → s.id ≠ fid →
        (removeFile st fid).selected = some s) := by
  refine ⟨?_, ?_, ?_, ?_⟩
  · intro f
    simp [removeFile, removeFileList, List.mem_filter]
  · exact List.filter_sublist _
  · cases hs : st.selected with
    | none => simp [removeFile, hs]
    | some s =>
        by_cases h : s.id = fid <;> simp [removeFile, hs, h]
  · intro s hs h
    simp [removeFile, hs, h]

/-! ### Concrete sample data and witnesses -/

def sampleFileA : UploadedFile := mkUploadedFile "a" "f.png" "image/png" 3

def sampleFileB : UploadedFile := mkUploadedFile "b" "g.png" "image/png" 4

def samplePage : PageState :=
  { files := [sampleFileA, sampleFileB], selected := some sampleFileA }

def sampleTranslation : TranslationResult :=
  { original_text := "abc", translated_text := "Hello",
    source_language := "ml", target_language := "en",
    source_language_name := "Malayalam", target_language_name := "English",
    error := none }

def sampleApiData : ApiData :=
  { ocr := { text := "abc", confidence := 1, method := "document",
             processing_time_seconds := 1, character_count := 3,
             word_count := 1 }
    language_detection := { language_code := "ml",
                            language_name := "Malayalam", confidence := 1,
                            is_kmrl_primary := true }
    translation := some sampleTranslation
    processing_id := "pid-1"
    upload_timestamp := some "ts"
    processing_time_seconds := 1 }

def mlApiData : ApiData := { sampleApiData with translation := none }

def sampleLang : LangStepData :=
  { language_code := "en", language_name := "English", confidence := 1 }

def sampleOutcomes : StepOutcomes :=
  { ocr := .ok { text := "abc", confidence := 1, method := "document" }
    language_detection := .ok sampleLang
    translation := .ok { original_text := "abc", translated_text := "abc",
                         source_language := "en", target_language := "en" }
    classification := .error "classification unavailable" }

def sampleClassification : ClassificationResult :=
  { category := "Safety circulars", category_name := "Safety circulars",
    confidence := 1, department := some "Safety", priority := some "high",
    error := none }

/-- Witness for C1 at a concrete run and a concrete removal. -/
theorem upload_file_status_lifecycle_witness :
    sampleFileA ∈ removeFileList [sampleFileA] "b"
    ∧ sampleFileA ∈ [sampleFileA] := by
  have hm : sampleFileA ∈ removeFileList [sampleFileA] "b" := by decide
  exact ⟨hm, (upload_file_status_lifecycle "a" "f.png" "image/png" 3 "t0"
    (.networkError "boom") (.failure "x")).2.2.2 [sampleFileA] "b"
      sampleFileA hm⟩

/-- Witness for C8 at the terminal state of a concrete failed run. -/
theorem upload_progress_monotone_witness :
    (updError "boom" (updProgress30 (updProcessing sampleFileA))).progress
      = 100 := by
  have hm : updError "boom" (updProgress30 (updProcessing sampleFileA))
      ∈ uploadTrace "a" "f.png" "image/png" 3 "t0" (.networkError "boom")
        (.failure "x") := by decide
  exact (upload_progress_monotone "a" "f.png" "image/png" 3 "t0"
    (.networkError "boom") (.failure "x")).2.2 _ hm (Or.inr rfl)

/-- Witness for C6 at the completed state of a concrete successful run. -/
theorem classification_substatus_witness :
    (updComplete (mkResult "f.png" 3 "t0" sampleApiData)
        sampleApiData.processing_id
        (updProgress80 (updProgress60 (updProgress30
          (updProcessing sampleFileA))))).status = .completed := by
  have hm : updComplete (mkResult "f.png" 3 "t0" sampleApiData)
      sampleApiData.processing_id
      (updProgress80 (updProgress60 (updProgress30
        (updProcessing sampleFileA))))
      ∈ uploadTrace "a" "f.png" "image/png" 3 "t0" (.ok sampleApiData)
        (.success sampleClassification) := by decide
  exact (classification_substatus_after_completed "a" "f.png" "image/png" 3
    "t0" (.ok sampleApiData) (.success sampleClassification)).1 _ hm
    (by decide)

/-- Witness for C7 at a concrete network failure. -/
theorem processing_failure_isolated_witness :
    FetchOutcome.failed (.networkError "boom") = true
    ∧ (processOCREffects "f.png" 3 "t0" (.networkError "boom")
        (.failure "x")).countP Effect.isDestructiveToast = 1 :=
  ⟨rfl, (processing_failure_isolated [sampleFileA] "a" "f.png" 3 "t0"
    (.networkError "boom") (.failure "x") rfl).2.2.1⟩

/-- Witness for C2 (amended) at a concrete successful run whose translation
is present and non-empty. -/
theorem single_classification_request_witness :
    translationDataOf sampleApiData = some sampleTranslation
    ∧ classifyBodyTranslation (translationDataOf sampleApiData)
        = some sampleTranslation.translated_text :=
  ⟨rfl, (single_classification_request "f.png" 3 "t0" sampleApiData
    (.failure "x")).2.2.2.1 sampleTranslation rfl (by decide)⟩

/-- Witness for C3 at a concrete Malayalam response with no translation. -/
theorem malayalam_fallback_translation_witness :
    mlApiData.translation = none
    ∧ (mkResult "f.png" 3 "t0" mlApiData).translation
        = some (translationFallback mlApiData.ocr.text) :=
  ⟨rfl, ((malayalam_fallback_translation "f.png" 3 "t0" mlApiData rfl).1
    rfl).1⟩

/-- Witness for C4 at concrete flags and step outcomes. -/
theorem per_field_error_tolerance_witness :
    (composeProcessResponse true true "en" sampleOutcomes).success = true
    ∧ (composeProcessResponse true true "en" sampleOutcomes).classification
        = some (mkClassSub sampleOutcomes.classification) := by
  obtain ⟨h1, _, _, _, _, _, _, _, _, _, _, h12, _⟩ :=
    per_field_error_tolerance true true "en" sampleOutcomes
  exact ⟨h1, h12 rfl⟩

/-- Witness for C5 at a concrete English detection with target "en". -/
theorem translation_skipped_witness :
    sampleOutcomes.language_detection = .ok sampleLang
    ∧ sampleLang.language_code = "en"
    ∧ (composeProcessResponse true true "en" sampleOutcomes).translation
        = none :=
  ⟨rfl, rfl, translation_skipped_when_same_language true "en" sampleOutcomes
    sampleLang rfl rfl⟩

/-- Witness for C9 at a concrete input. -/
theorem extractSources_count_witness :
    1 ≤ (extractSources "hello world").length
    ∧ (extractSources "hello world").length ≤ 3 :=
  extractSources_count "hello world"

/-- Witness for C10 at a concrete page state. -/
theorem removeFile_frame_witness :
    sampleFileB ∈ (removeFile samplePage "a").files
    ∧ (removeFile samplePage "a").selected = none := by
  refine ⟨?_, ?_⟩
  · exact ((removeFile_frame samplePage "a").1 sampleFileB).mpr
      ⟨by decide, by decide⟩
  · exact ((removeFile_frame samplePage "a").2.2.1).mpr
      (Or.inr ⟨sampleFileA, rfl, rfl⟩)

end DataTrack
